import Mathlib

/-!
# Verification of the any-llm-ts Unified Completion Gateway

A shallow embedding of the gateway core of the `any-llm-ts` repository:
the canonical data model (`src/types.ts`), the error taxonomy and
`wrapError` (`src/errors.ts`), the provider registry and model-string
resolution (`src/registry.ts`), the top-level `checkProvider`
(`src/api.ts`), and the request/response conversion and streaming
decoders of the Ollama, OpenAI, Anthropic and Llamafile providers
(`src/providers/*.ts`).

Conventions of the embedding:
* TypeScript `undefined`/optional fields become `Option`; TS string
  truthiness (`if (s)`) is `s` being `some` of a nonempty string.
* External collaborators are parameters: `JSON.parse` of a streamed
  line is modelled by feeding the decoders a list of already-classified
  lines (`malformed` marks a line on which `JSON.parse` threw), and
  `Date.now()` is a `now : Nat` parameter.
* TS numeric sampling scalars (temperature and friends) are only ever
  copied by this code, never computed with, so requests are polymorphic
  in their scalar type `ν`.
* Thrown JS values are modelled by the `Thrown` structure recording
  exactly the fields the error-classification code inspects.
* Error message texts are carried but lightly normalised (no quote
  characters); no claim depends on exact message wording.
-/

/-- Does the character list contain the needle as a contiguous run? -/
def charsContain (needle : List Char) : List Char → Bool
  | [] => needle.isEmpty
  | c :: cs => needle.isPrefixOf (c :: cs) || charsContain needle cs

/-- Does the haystack string contain the needle as a substring?
Embeds TS `String.prototype.includes`. -/
def strContains (hay needle : String) : Bool :=
  charsContain needle.toList hay.toList

/-- Lowercase a string characterwise. Embeds TS
`String.prototype.toLowerCase` through the character list (the core
`String.toLower` is not kernel-reducible). -/
def strToLower (s : String) : String :=
  String.mk (s.toList.map Char.toLower)

/-- Uppercase a string characterwise. Embeds TS
`String.prototype.toUpperCase`. -/
def strToUpper (s : String) : String :=
  String.mk (s.toList.map Char.toUpper)

/-- Does the string start with the given prefix? Embeds TS
`String.prototype.startsWith`. -/
def strStartsWith (s pre : String) : Bool :=
  pre.toList.isPrefixOf s.toList

/-- Split a character list on a separator character, keeping empty
segments. Embeds TS `String.prototype.split` with a one-character
separator. -/
def splitOnChar (c : Char) : List Char → List (List Char)
  | [] => [[]]
  | x :: xs =>
    let rest := splitOnChar c xs
    if x = c then [] :: rest
    else
      match rest with
      | r :: rs => (x :: r) :: rs
      | [] => [[x]]

/-- TS string truthiness of an optional string: present and nonempty. -/
def optTruthy : Option String → Bool
  | some s => !(s == "")
  | none => false

/-- TS `a || b` for an optional string `a` with fallback `b`
(`undefined`, `null` and `""` all select the fallback). -/
def strOr (a : Option String) (b : String) : String :=
  match a with
  | some s => if s == "" then b else s
  | none => b

/-- TS `a || b` for an optional number with fallback. -/
def natOr (a : Option Nat) (b : Nat) : Nat :=
  match a with
  | some n => n
  | none => b

-- =========================================================================
-- Canonical data model (src/types.ts)
-- =========================================================================

/-- Embeds `MessageRole` of `src/types.ts`. -/
inductive MessageRole
  | system
  | user
  | assistant
  | tool
deriving DecidableEq, Repr

/-- Embeds `ToolCall` of `src/types.ts`: `type` is always the literal
`"function"`, so only the varying fields are carried. `arguments` is the
JSON-encoded argument text. -/
structure ToolCall where
  id : String
  name : String
  arguments : String
deriving DecidableEq, Repr

/-- One element of an array-valued `Message.content`
(`TextContentPart | ImageContentPart` of `src/types.ts`); the image
detail hint is not inspected by any embedded code path and is omitted. -/
inductive ContentPart
  | text (t : String)
  | imageUrl (url : String)
deriving DecidableEq, Repr

/-- Embeds `MessageContent` of `src/types.ts`: a string, `null`, or parts. -/
inductive MessageContent
  | str (s : String)
  | null
  | parts (ps : List ContentPart)
deriving DecidableEq, Repr

/-- Embeds `Message` of `src/types.ts`. -/
structure Message where
  role : MessageRole
  content : MessageContent
  tool_calls : Option (List ToolCall) := none
  tool_call_id : Option String := none
  name : Option String := none
deriving DecidableEq, Repr

/-- Embeds `Tool` of `src/types.ts`; `parameters` is an opaque JSON-schema
object, carried as uninterpreted text. -/
structure Tool where
  name : String
  description : Option String := none
  parameters : String
deriving DecidableEq, Repr

/-- Embeds `tool_choice` of `CompletionRequest`. -/
inductive ToolChoice
  | none
  | auto
  | required
  | function (name : String)
deriving DecidableEq, Repr

/-- Embeds `stop` of `CompletionRequest`: `string | string[]`. -/
inductive StopSpec
  | one (s : String)
  | many (ss : List String)
deriving DecidableEq, Repr

/-- Embeds `response_format` of `CompletionRequest`; the JSON schema payload is
opaque text. -/
inductive ResponseFormat
  | text
  | jsonObject
  | jsonSchema (schema : String)
deriving DecidableEq, Repr

/-- Embeds `CompletionRequest` of `src/types.ts`. `ν` is the type of the TS
numeric sampling scalars, which the gateway only copies. -/
structure CompletionRequest (ν : Type) where
  model : String
  provider : Option String := none
  messages : List Message
  tools : Option (List Tool) := none
  tool_choice : Option ToolChoice := none
  temperature : Option ν := none
  top_p : Option ν := none
  max_tokens : Option ν := none
  stream : Option Bool := none
  n : Option ν := none
  stop : Option StopSpec := none
  presence_penalty : Option ν := none
  frequency_penalty : Option ν := none
  seed : Option ν := none
  user : Option String := none
  response_format : Option ResponseFormat := none
  api_key : Option String := none
  api_base : Option String := none

/-- Embeds `finish_reason` values of `CompletionChoice`/`ChunkChoice`
(`null` is `Option.none` around this type). -/
inductive FinishReason
  | stop
  | length
  | tool_calls
  | content_filter
deriving DecidableEq, Repr

/-- Embeds `CompletionUsage` of `src/types.ts`. -/
structure CompletionUsage where
  prompt_tokens : Nat
  completion_tokens : Nat
  total_tokens : Nat
deriving DecidableEq, Repr

/-- Embeds `CompletionChoice` of `src/types.ts` (reasoning text omitted: no
embedded path populates it). -/
structure CompletionChoice where
  index : Nat
  message : Message
  finish_reason : Option FinishReason
deriving DecidableEq, Repr

/-- Embeds `ChatCompletion` of `src/types.ts`; `object` is always the literal
`"chat.completion"`. -/
structure ChatCompletion where
  id : String
  created : Nat
  model : String
  provider : Option String
  choices : List CompletionChoice
  usage : Option CompletionUsage
deriving DecidableEq, Repr

/-- A possibly-partial tool call inside a chunk delta
(`Partial<ToolCall>` of `src/types.ts`). -/
structure PartialToolCall where
  id : Option String
  name : Option String
  arguments : Option String
deriving DecidableEq, Repr

/-- Embeds `ChunkDelta` of `src/types.ts`. -/
structure ChunkDelta where
  role : Option MessageRole := none
  content : Option String := none
  tool_calls : Option (List PartialToolCall) := none
deriving DecidableEq, Repr

/-- Embeds `ChunkChoice` of `src/types.ts`. -/
structure ChunkChoice where
  index : Nat
  delta : ChunkDelta
  finish_reason : Option FinishReason
deriving DecidableEq, Repr

/-- Embeds `ChatCompletionChunk` of `src/types.ts`; `object` is always
`"chat.completion.chunk"`. -/
structure ChatCompletionChunk where
  id : String
  created : Nat
  model : String
  choices : List ChunkChoice
deriving DecidableEq, Repr

/-- Embeds `ModelInfo` of `src/types.ts`. -/
structure ModelInfo where
  id : String
  created : Option Nat := none
  owned_by : Option String := none
  provider : Option String := none
  supports_tools : Option Bool := none
  supports_vision : Option Bool := none
deriving DecidableEq, Repr

/-- Embeds `ParsedModel` of `src/types.ts`. -/
structure ParsedModel where
  provider : String
  model : String
deriving DecidableEq, Repr

/-- Embeds `ProviderStatus` of `src/types.ts`. -/
structure ProviderStatus where
  provider : String
  available : Bool
  error : Option String := none
  version : Option String := none
  models : Option (List ModelInfo) := none
deriving DecidableEq, Repr

-- =========================================================================
-- Error taxonomy (src/errors.ts, src/types.ts)
-- =========================================================================

/-- The canonical error classes of `src/errors.ts` (each carries the
fields its constructor stores beyond the formatted message). -/
inductive AnyLLMErr
  | missingApiKey (provider envKey : String)
  | unsupportedProvider (provider : String) (supported : List String)
  | requestFailed (provider msg : String) (status : Option Nat)
  | rateLimited (provider : String) (retryAfter : Option Nat)
  | providerUnavailable (provider : String) (reason : Option String)
  | timeout (provider : String) (timeoutMs : Nat)
deriving DecidableEq, Repr

/-- A failure as surfaced to the caller: either an instance of the
canonical taxonomy of `src/errors.ts`, or a plain uncategorised JS
`Error` (as thrown by `registry.ts` resolution and
`BaseProvider.validateConfig`). -/
inductive GatewayError
  | canonical (e : AnyLLMErr)
  | plain (msg : String)
deriving DecidableEq, Repr

/-- Is the surfaced failure an instance of the canonical taxonomy? -/
def GatewayError.isCanonical : GatewayError → Bool
  | .canonical _ => true
  | .plain _ => false

/-- Every error of a fallible result is canonical (vacuously true on
success). -/
def errsCanonical {α : Type} : Except GatewayError α → Bool
  | .ok _ => true
  | .error g => g.isCanonical

/-- Every error of a fallible result is a plain uncategorised `Error`
(vacuously true on success). -/
def errsPlain {α : Type} : Except GatewayError α → Bool
  | .ok _ => true
  | .error g => !g.isCanonical

/-- A thrown JS value, recording exactly the observations the
error-classification code of `src/errors.ts` and the provider catch
blocks make of it. -/
structure Thrown where
  /-- Embeds `error instanceof Error`. -/
  isError : Bool
  /-- Embeds `some e` iff `error instanceof AnyLLMError`, with its identity. -/
  canonical : Option AnyLLMErr
  /-- The numeric `status` property when present
  (`isOpenAIError`/`isAnthropicError` of `src/errors.ts`). -/
  status : Option Nat
  /-- The `message` property as the code reads it. -/
  message : String
  /-- The `name` property (`"AbortError"` marks an aborted fetch). -/
  name : String
  /-- Embeds `String(error)`, the stringified cause for non-Error values. -/
  strRepr : String
deriving DecidableEq, Repr

/-- Embeds `isConnectionError` of `src/errors.ts`: an `Error` whose lowercased
message carries a connection-refusal marker. -/
def isConnectionError (e : Thrown) : Bool :=
  e.isError &&
    (let m := (strToLower e.message)
     strContains m "econnrefused" || strContains m "fetch failed" ||
       strContains m "network" || strContains m "connection")

/-- Embeds `wrapError` of `src/errors.ts` (the SDK-enhanced version): wraps any
thrown value into a canonical error. Mirrors the source order: AnyLLMError
pass-through, then the numeric-status branch, then connection errors,
then Error-message patterns, then the stringified fallback. -/
def wrapError (provider : String) (e : Thrown) : AnyLLMErr :=
  match e.canonical with
  | some a => a
  | none =>
    match e.status with
    | some s =>
      if s == 429 then .rateLimited provider none
      else if s == 401 || s == 403 then
        .missingApiKey provider ((strToUpper provider) ++ "_API_KEY")
      else .requestFailed provider e.message (some s)
    | none =>
      if isConnectionError e then
        .providerUnavailable provider
          (some ("Cannot connect to " ++ provider ++ ". Is it running?"))
      else if e.isError then
        let m := (strToLower e.message)
        if strContains m "rate limit" || strContains m "too many requests" then
          .rateLimited provider none
        else if strContains m "unauthorized" || strContains m "invalid api key"
            || strContains m "authentication" then
          .missingApiKey provider ((strToUpper provider) ++ "_API_KEY")
        else if strContains m "timeout" || strContains m "timed out"
            || e.name == "AbortError" then
          .timeout provider 0
        else .requestFailed provider e.message none
      else .requestFailed provider e.strRepr none

/-- The mapping C3 claims, written rule-by-rule in the claim priority
order: pass-through; connection signal (before any status rule); status
429 or rate-limit message; status 401/403 or credential message;
cancellation signal; remaining status-bearing values; stringified rest. -/
def wrapErrorSpecClaim (provider : String) (e : Thrown) : AnyLLMErr :=
  match e.canonical with
  | some a => a
  | none =>
    if isConnectionError e then
      .providerUnavailable provider
        (some ("Cannot connect to " ++ provider ++ ". Is it running?"))
    else if e.status == some 429
        || (e.isError && (strContains (strToLower e.message) "rate limit"
              || strContains (strToLower e.message) "too many requests")) then
      .rateLimited provider none
    else if e.status == some 401 || e.status == some 403
        || (e.isError && (strContains (strToLower e.message) "unauthorized"
              || strContains (strToLower e.message) "invalid api key"
              || strContains (strToLower e.message) "authentication")) then
      .missingApiKey provider ((strToUpper provider) ++ "_API_KEY")
    else if e.isError && (strContains (strToLower e.message) "timeout"
          || strContains (strToLower e.message) "timed out"
          || e.name == "AbortError") then
      .timeout provider 0
    else
      match e.status with
      | some s => .requestFailed provider e.message (some s)
      | none =>
        .requestFailed provider (if e.isError then e.message else e.strRepr) none

/-- The actual priority order of `wrapError`, written as the same flat
rule list: status rules come before the connection-refusal rule, which
therefore only fires for errors carrying no numeric status. -/
def wrapErrorSpecAmended (provider : String) (e : Thrown) : AnyLLMErr :=
  match e.canonical with
  | some a => a
  | none =>
    if e.status == some 429 then .rateLimited provider none
    else if e.status == some 401 || e.status == some 403 then
      .missingApiKey provider ((strToUpper provider) ++ "_API_KEY")
    else if e.status.isSome then
      .requestFailed provider e.message e.status
    else if isConnectionError e then
      .providerUnavailable provider
        (some ("Cannot connect to " ++ provider ++ ". Is it running?"))
    else if e.isError && (strContains (strToLower e.message) "rate limit"
          || strContains (strToLower e.message) "too many requests") then
      .rateLimited provider none
    else if e.isError && (strContains (strToLower e.message) "unauthorized"
          || strContains (strToLower e.message) "invalid api key"
          || strContains (strToLower e.message) "authentication") then
      .missingApiKey provider ((strToUpper provider) ++ "_API_KEY")
    else if e.isError && (strContains (strToLower e.message) "timeout"
          || strContains (strToLower e.message) "timed out"
          || e.name == "AbortError") then
      .timeout provider 0
    else if e.isError then .requestFailed provider e.message none
    else .requestFailed provider e.strRepr none

-- =========================================================================
-- Registry and model-string resolution (src/registry.ts)
-- =========================================================================

/-- The registry contents: the lowercased names under which
`registerProvider` stored a constructor. `src/api.ts` registers these
four built-ins at module load. -/
def builtinRegistry : List String :=
  ["ollama", "openai", "anthropic", "llamafile"]

/-- Embeds `hasProvider` of `src/registry.ts`: lookup under the lowercased
name. -/
def hasProvider (registry : List String) (name : String) : Bool :=
  registry.contains (strToLower name)

/-- Split a character list at the first occurrence of `c`, returning the
parts before and after it; `none` when `c` does not occur. Embeds the
`indexOf` + two `substring` calls of `parseModelString`. -/
def findSplit (c : Char) : List Char → Option (List Char × List Char)
  | [] => none
  | x :: xs =>
    if x = c then some ([], xs)
    else
      match findSplit c xs with
      | some (l, r) => some (x :: l, r)
      | none => none

/-- Embeds `parseModelString` of `src/registry.ts` on the character list of the
model string: first the colon format (both sides nonempty), then the
slash format (left side a registered provider, right side nonempty),
else `none`. -/
def parseModelChars (registry : List String) (s : List Char) : Option ParsedModel :=
  let colonAttempt :=
    match findSplit ':' s with
    | some (p, m) =>
      if p.isEmpty || m.isEmpty then none
      else some ⟨strToLower (String.mk p), String.mk m⟩
    | none => none
  match colonAttempt with
  | some r => some r
  | none =>
    match findSplit '/' s with
    | some (p, m) =>
      let potentialProvider := strToLower (String.mk p)
      if hasProvider registry potentialProvider then
        if m.isEmpty then none else some ⟨potentialProvider, String.mk m⟩
      else none
    | none => none

/-- Embeds `parseModelString` of `src/registry.ts`. -/
def parseModelString (registry : List String) (model : String) : Option ParsedModel :=
  parseModelChars registry model.toList

/-- Embeds `resolveProviderAndModel` of `src/registry.ts`: an explicit (truthy)
provider wins and is lowercased with the whole string as model id; else
the parsed prefix; else a plain uncategorised `Error`. -/
def resolveProviderAndModel (registry : List String) (model : String)
    (provider : Option String) : Except GatewayError ParsedModel :=
  if optTruthy provider then
    .ok ⟨strToLower (provider.getD ""), model⟩
  else
    match parseModelString registry model with
    | some parsed => .ok parsed
    | none =>
      .error (.plain ("Cannot determine provider for model " ++ model ++
        ". Use provider:model format or pass explicit provider parameter."))

/-- The registration check inside `createProvider` of `src/registry.ts`:
an unregistered name raises the canonical `UnsupportedProviderError`. -/
def createProviderCheck (registry : List String) (name : String) :
    Except GatewayError Unit :=
  if registry.contains (strToLower name) then .ok ()
  else .error (.canonical (.unsupportedProvider name registry))

/-- Embeds `BaseProvider.validateConfig` of `src/providers/base.ts`: a missing
API key on a provider that requires one raises a plain `Error`, not a
canonical one. -/
def validateConfig (providerName envKey : String) (requiresApiKey : Bool)
    (apiKey : Option String) : Except GatewayError Unit :=
  if requiresApiKey && !(optTruthy apiKey) then
    .error (.plain ("API key required for " ++ providerName ++ ". Set " ++
      envKey ++ " environment variable or pass apiKey in config."))
  else .ok ()

/-- The catch block of `OllamaProvider.completion`
(`src/providers/ollama.ts` lines 437-443): `ProviderRequestError` is
rethrown, an aborted fetch becomes `TimeoutError`, everything else
becomes `ProviderRequestError` with the message or stringified value. -/
def ollamaCompletionCatch (timeoutMs : Nat) (e : Thrown) : GatewayError :=
  match e.canonical with
  | some (.requestFailed p m s) => .canonical (.requestFailed p m s)
  | _ =>
    if e.isError && e.name == "AbortError" then
      .canonical (.timeout "ollama" timeoutMs)
    else
      .canonical (.requestFailed "ollama"
        (if e.isError then e.message else e.strRepr) none)

-- =========================================================================
-- Ollama provider (src/providers/ollama.ts)
-- =========================================================================

/-- A tool call in Ollama wire format. The Ollama API carries arguments
as a structured JSON object; `JSON.parse`/`JSON.stringify` at this
boundary are external, so `arguments` carries the JSON text. -/
structure OllamaToolCall where
  id : Option String
  name : String
  arguments : String
deriving DecidableEq, Repr

/-- Embeds `OllamaMessage` of `src/providers/ollama.ts`. -/
structure OllamaMessage where
  role : MessageRole
  content : String
  images : Option (List String) := none
  tool_calls : Option (List OllamaToolCall) := none
deriving DecidableEq, Repr

/-- Embeds `OllamaTool` of `src/providers/ollama.ts` (`description` is
defaulted to the empty string by the conversion). -/
structure OllamaTool where
  name : String
  description : String
  parameters : String
deriving DecidableEq, Repr

/-- The `options` object of `OllamaChatRequest`. -/
structure OllamaOptions (ν : Type) where
  temperature : Option ν := none
  top_p : Option ν := none
  num_predict : Option ν := none
  stop : Option (List String) := none
  seed : Option ν := none

/-- Embeds `OllamaChatRequest` of `src/providers/ollama.ts`. -/
structure OllamaChatRequest (ν : Type) where
  model : String
  messages : List OllamaMessage
  tools : Option (List OllamaTool) := none
  stream : Bool
  options : OllamaOptions ν

/-- One message of `OllamaProvider.convertMessages`: flattens array
content to space-joined text, collects base64 payloads of
`data:image/` URLs, and copies tool calls (arguments JSON text kept
verbatim at the parse/stringify boundary). -/
def ollamaConvertMessage (msg : Message) : OllamaMessage :=
  let base : OllamaMessage := { role := msg.role, content := "" }
  let withContent :=
    match msg.content with
    | .str s => { base with content := s }
    | .parts ps =>
      let textParts := ps.filterMap (fun p =>
        match p with
        | .text t => some t
        | .imageUrl _ => none)
      let images := ps.filterMap (fun p =>
        match p with
        | .text _ => none
        | .imageUrl url =>
          if strStartsWith url "data:image/" then
            match (splitOnChar ',' url.toList).get? 1 with
            | some b => if String.mk b == "" then none else some (String.mk b)
            | none => none
          else none)
      { base with
        content := String.intercalate " " textParts
        images := if images.length > 0 then some images else none }
    | .null => { base with content := "" }
  match msg.tool_calls with
  | some tcs =>
    if tcs.length > 0 then
      { withContent with
        tool_calls := some (tcs.map (fun tc =>
          { id := some tc.id, name := tc.name, arguments := tc.arguments })) }
    else withContent
  | none => withContent

/-- Embeds `OllamaProvider.convertTools`. -/
def ollamaConvertTools (tools : List Tool) : List OllamaTool :=
  tools.map (fun t =>
    { name := t.name, description := t.description.getD "",
      parameters := t.parameters })

/-- The synchronous pre-network phase of `OllamaProvider.completion`
(`src/providers/ollama.ts` lines 380-415): convert messages, reject
tools only when the probed Ollama version is known not to support them,
copy the sampling options. No message-list validation occurs. -/
def ollamaBuildRequest {ν : Type} (toolsSupported : Option Bool)
    (version : Option String) (req : CompletionRequest ν) :
    Except GatewayError (OllamaChatRequest ν) :=
  let msgs := req.messages.map ollamaConvertMessage
  let toolsField : Except GatewayError (Option (List OllamaTool)) :=
    match req.tools with
    | some ts =>
      if ts.length > 0 then
        if toolsSupported == some false then
          .error (.canonical (.requestFailed "ollama"
            ("Ollama version " ++ version.getD "null" ++
              " does not support tool calling. Upgrade to 0.3.0 or later.")
            none))
        else .ok (some (ollamaConvertTools ts))
      else .ok none
    | none => .ok none
  match toolsField with
  | .error e => .error e
  | .ok tf =>
    .ok { model := req.model
          messages := msgs
          tools := tf
          stream := false
          options :=
            { temperature := req.temperature
              top_p := req.top_p
              num_predict := req.max_tokens
              stop :=
                match req.stop with
                | some (.one s) => if s == "" then none else some [s]
                | some (.many l) => some l
                | none => none
              seed := req.seed } }

/-- Embeds `OllamaChatResponse` of `src/providers/ollama.ts`, restricted to the
fields `convertResponse` reads. -/
structure OllamaChatResponse where
  model : Option String
  message : OllamaMessage
  done : Bool
  prompt_eval_count : Option Nat := none
  eval_count : Option Nat := none
deriving DecidableEq, Repr

/-- Embeds `OllamaProvider.convertResponse` (`src/providers/ollama.ts` lines
334-375). `now` stands for `Date.now()` in milliseconds. -/
def ollamaConvertResponse (now : Nat) (model : String)
    (response : OllamaChatResponse) : ChatCompletion :=
  let toolCalls : Option (List ToolCall) :=
    match response.message.tool_calls with
    | some tcs =>
      if tcs.length > 0 then
        some (tcs.enum.map (fun (i, tc) =>
          { id := strOr tc.id ("call_" ++ toString i), name := tc.name,
            arguments := tc.arguments }))
      else none
    | none => none
  let message : Message :=
    { role := response.message.role
      content :=
        if response.message.content == "" then .null
        else .str response.message.content
      tool_calls := toolCalls }
  let finishReason : Option FinishReason :=
    match toolCalls with
    | some tcs => if tcs.length > 0 then some .tool_calls else some .stop
    | none => some .stop
  { id := "ollama-" ++ toString now
    created := now / 1000
    model := strOr response.model model
    provider := some "ollama"
    choices := [{ index := 0, message := message, finish_reason := finishReason }]
    usage := some
      { prompt_tokens := natOr response.prompt_eval_count 0
        completion_tokens := natOr response.eval_count 0
        total_tokens :=
          natOr response.prompt_eval_count 0 + natOr response.eval_count 0 } }

/-- One parsed frame of the Ollama newline-delimited JSON stream,
restricted to the fields the stream loop reads. -/
structure OllamaStreamFrame where
  model : Option String := none
  content : Option String := none
  toolCalls : Option (List OllamaToolCall) := none
  done : Bool
deriving DecidableEq, Repr

/-- One line of the Ollama stream after buffering: blank lines are
skipped, lines on which `JSON.parse` threw are skipped, the rest are
parsed frames. -/
inductive OllamaLine
  | blank
  | malformed
  | frame (f : OllamaStreamFrame)
deriving DecidableEq, Repr

/-- The chunk emitted for one parsed Ollama frame
(`src/providers/ollama.ts` lines 515-546): `id`/`created` are captured
once per stream, `model` falls back from the frame to the request. -/
def ollamaEmitChunk (reqModel : String) (now : Nat)
    (f : OllamaStreamFrame) : ChatCompletionChunk :=
  let baseChoice : ChunkChoice :=
    { index := 0
      delta := { content := some (strOr f.content "") }
      finish_reason := if f.done then some .stop else none }
  let choice :=
    match f.toolCalls with
    | some tcs =>
      if tcs.length > 0 then
        { baseChoice with
          delta := { baseChoice.delta with
            tool_calls := some (tcs.enum.map (fun (i, tc) =>
              { id := some (strOr tc.id ("call_" ++ toString i))
                name := some tc.name
                arguments := some tc.arguments })) }
          finish_reason :=
            if f.done then some .tool_calls else baseChoice.finish_reason }
      else baseChoice
    | none => baseChoice
  { id := "ollama-" ++ toString now
    created := now / 1000
    model := strOr f.model reqModel
    choices := [choice] }

/-- The per-line loop of `OllamaProvider.completionStream`
(`src/providers/ollama.ts` lines 500-554): blank and unparseable lines
are skipped without aborting; every parsed frame yields one chunk. -/
def ollamaCompletionStreamDecode (reqModel : String) (now : Nat) :
    List OllamaLine → List ChatCompletionChunk
  | [] => []
  | .blank :: rest => ollamaCompletionStreamDecode reqModel now rest
  | .malformed :: rest => ollamaCompletionStreamDecode reqModel now rest
  | .frame f :: rest =>
    ollamaEmitChunk reqModel now f ::
      ollamaCompletionStreamDecode reqModel now rest

/-- The parsed frames of an Ollama line stream, in arrival order. -/
def ollamaParsedFrames : List OllamaLine → List OllamaStreamFrame
  | [] => []
  | .blank :: rest => ollamaParsedFrames rest
  | .malformed :: rest => ollamaParsedFrames rest
  | .frame f :: rest => f :: ollamaParsedFrames rest

-- =========================================================================
-- OpenAI provider (src/providers/openai.ts)
-- =========================================================================

/-- Content of an `OpenAIMessage`: string, part array, or `null`. -/
inductive OpenAIContent
  | str (s : String)
  | null
  | parts (ps : List ContentPart)
deriving DecidableEq, Repr

/-- Embeds `OpenAIMessage` of `src/providers/openai.ts`. -/
structure OpenAIMsg where
  role : MessageRole
  content : OpenAIContent
  tool_calls : Option (List ToolCall) := none
  tool_call_id : Option String := none
  name : Option String := none
deriving DecidableEq, Repr

/-- Embeds `OpenAIProvider.convertMessages`: content copied shape-for-shape,
`tool_calls` copied whenever present, `tool_call_id` and `name` copied
when truthy. No validation of roles or emptiness. -/
def openaiConvertMessage (msg : Message) : OpenAIMsg :=
  { role := msg.role
    content :=
      match msg.content with
      | .str s => .str s
      | .parts ps => .parts (ps.map (fun p => p))
      | .null => .null
    tool_calls := msg.tool_calls
    tool_call_id := if optTruthy msg.tool_call_id then msg.tool_call_id else none
    name := if optTruthy msg.name then msg.name else none }

/-- Embeds `OpenAIChatRequest` of `src/providers/openai.ts`. -/
structure OpenAIChatRequest (ν : Type) where
  model : String
  messages : List OpenAIMsg
  tools : Option (List Tool) := none
  tool_choice : Option ToolChoice := none
  temperature : Option ν := none
  top_p : Option ν := none
  max_tokens : Option ν := none
  max_completion_tokens : Option ν := none
  stream : Bool
  n : Option ν := none
  stop : Option StopSpec := none
  presence_penalty : Option ν := none
  frequency_penalty : Option ν := none
  seed : Option ν := none
  user : Option String := none
  response_format : Option ResponseFormat := none

/-- Embeds `OpenAIProvider.convertTools` (keeps `description` optional). -/
def openaiConvertTools (tools : List Tool) : List Tool :=
  tools.map (fun t =>
    { name := t.name, description := t.description,
      parameters := t.parameters })

/-- The synchronous pre-network phase of `OpenAIProvider.completion`
(`src/providers/openai.ts` lines 319-372): the only rejection is a
missing API key; messages are converted without validation and every
optional parameter is copied (`max_tokens` renamed for o1/o3 models). -/
def openaiBuildRequest {ν : Type} (apiKey : Option String)
    (req : CompletionRequest ν) :
    Except GatewayError (OpenAIChatRequest ν) :=
  if !(optTruthy apiKey) then
    .error (.canonical (.missingApiKey "openai" "OPENAI_API_KEY"))
  else
    let renameMaxTokens :=
      strStartsWith req.model "o1" || strStartsWith req.model "o3"
    .ok { model := req.model
          messages := req.messages.map openaiConvertMessage
          tools :=
            match req.tools with
            | some ts => if ts.length > 0 then some (openaiConvertTools ts) else none
            | none => none
          tool_choice := req.tool_choice
          temperature := req.temperature
          top_p := req.top_p
          max_tokens := if renameMaxTokens then none else req.max_tokens
          max_completion_tokens := if renameMaxTokens then req.max_tokens else none
          stream := false
          n := req.n
          stop := req.stop
          presence_penalty := req.presence_penalty
          frequency_penalty := req.frequency_penalty
          seed := req.seed
          user := req.user
          response_format := req.response_format }

-- =========================================================================
-- Anthropic provider (src/providers/anthropic.ts)
-- =========================================================================

/-- Embeds `AnthropicContent` blocks as read by
`AnthropicProvider.convertResponse`; the `input` of a `tool_use` block
is a structured JSON object whose `JSON.stringify` image is carried as
text. -/
inductive AnthropicContent
  | text (t : String)
  | image (source : String)
  | toolUse (id name input : String)
  | toolResult (toolUseId content : String)
deriving DecidableEq, Repr

/-- Embeds `stop_reason` vocabulary of the Anthropic Messages API. -/
inductive AnthropicStopReason
  | endTurn
  | maxTokens
  | stopSequence
  | toolUse
deriving DecidableEq, Repr

/-- Embeds `AnthropicResponse` of `src/providers/anthropic.ts`, restricted to
the fields `convertResponse` reads. -/
structure AnthropicResponse where
  id : String
  content : List AnthropicContent
  model : String
  stop_reason : Option AnthropicStopReason
  input_tokens : Nat
  output_tokens : Nat
deriving DecidableEq, Repr

/-- Embeds `AnthropicProvider.convertResponse` (`src/providers/anthropic.ts`
lines 321-369): concatenates text blocks, collects `tool_use` blocks,
and derives `finish_reason` from `stop_reason` alone
(`tool_use` to `tool_calls`, `max_tokens` to `length`, else `stop`). -/
def anthropicConvertResponse (now : Nat) (response : AnthropicResponse) :
    ChatCompletion :=
  let textContent := String.join (response.content.filterMap (fun b =>
    match b with
    | .text t => some t
    | _ => none))
  let toolCalls : List ToolCall := response.content.filterMap (fun b =>
    match b with
    | .toolUse i n input => some { id := i, name := n, arguments := input }
    | _ => none)
  let finishReason : FinishReason :=
    match response.stop_reason with
    | some .toolUse => .tool_calls
    | some .maxTokens => .length
    | _ => .stop
  { id := response.id
    created := now / 1000
    model := response.model
    provider := some "anthropic"
    choices := [{
      index := 0
      message :=
        { role := .assistant
          content := if textContent == "" then .null else .str textContent
          tool_calls := if toolCalls.length > 0 then some toolCalls else none }
      finish_reason := some finishReason }]
    usage := some
      { prompt_tokens := response.input_tokens
        completion_tokens := response.output_tokens
        total_tokens := response.input_tokens + response.output_tokens } }

/-- The `delta` payload of a `content_block_delta` stream event, as the
handler reads it. -/
inductive AnthropicDelta
  | textDelta (text : String)
  | inputJsonDelta (fragment : String)
  | other
deriving DecidableEq, Repr

/-- One parsed Anthropic SSE stream event
(`AnthropicStreamEvent` of `src/providers/anthropic.ts`). -/
inductive AnthropicStreamEvent
  | messageStart (id model : String)
  | contentBlockStartToolUse (id name : String)
  | contentBlockStartOther
  | contentBlockDelta (d : AnthropicDelta)
  | contentBlockStop
  | messageDelta (stopReason : Option String)
  | messageStop
  | ping
deriving DecidableEq, Repr

/-- One line of the Anthropic SSE stream after buffering: lines without
the `data: ` prefix are ignored, lines on which `JSON.parse` threw are
skipped, the rest are parsed events. -/
inductive AnthropicLine
  | notData
  | malformed
  | event (e : AnthropicStreamEvent)
deriving DecidableEq, Repr

/-- An in-progress streamed tool use
(`currentToolUse` of `AnthropicProvider.completionStream`). -/
structure AnthropicToolUse where
  id : String
  name : String
  arguments : String
deriving DecidableEq, Repr

/-- The per-stream state of `AnthropicProvider.completionStream`:
identifiers captured from `message_start` and the tool-use
accumulator. -/
structure AnthropicStreamState where
  messageId : String
  model : String
  currentToolUse : Option AnthropicToolUse
deriving DecidableEq, Repr

/-- The chunk id used on emission: the captured message id, with a
`Date.now()`-based fallback when no `message_start` was seen. -/
def anthropicChunkId (st : AnthropicStreamState) (now : Nat) : String :=
  strOr (some st.messageId) ("anthropic-" ++ toString now)

/-- The event handler of `AnthropicProvider.completionStream`
(`src/providers/anthropic.ts` lines 521-601): text deltas are emitted as
content chunks, tool-use argument fragments are only accumulated, the
accumulated tool call is emitted (with null `finish_reason`) on
`content_block_stop`, and `message_delta` emits the terminal chunk with
the mapped stop reason. -/
def anthropicStep (now created : Nat) (st : AnthropicStreamState) :
    AnthropicStreamEvent → AnthropicStreamState × List ChatCompletionChunk
  | .messageStart id model => ({ st with messageId := id, model := model }, [])
  | .contentBlockStartToolUse id name =>
    ({ st with currentToolUse := some { id := id, name := name, arguments := "" } }, [])
  | .contentBlockStartOther => (st, [])
  | .contentBlockDelta d =>
    match d with
    | .textDelta t =>
      if t == "" then (st, [])
      else
        (st,
          [{ id := anthropicChunkId st now
             created := created
             model := st.model
             choices := [{ index := 0, delta := { content := some t },
                           finish_reason := none }] }])
    | .inputJsonDelta f =>
      if f == "" then (st, [])
      else
        match st.currentToolUse with
        | some cur =>
          let updated : AnthropicToolUse := { cur with arguments := cur.arguments ++ f }
          ({ st with currentToolUse := some updated }, [])
        | none => (st, [])
    | .other => (st, [])
  | .contentBlockStop =>
    match st.currentToolUse with
    | some cur =>
      let toolCallOut : PartialToolCall :=
        { id := some cur.id, name := some cur.name,
          arguments := some cur.arguments }
      ({ st with currentToolUse := none },
        [{ id := anthropicChunkId st now
           created := created
           model := st.model
           choices := [{
             index := 0
             delta := { tool_calls := some [toolCallOut] }
             finish_reason := none }] }])
    | none => (st, [])
  | .messageDelta stopReason =>
    let finishReason : FinishReason :=
      if stopReason == some "tool_use" then .tool_calls
      else if stopReason == some "max_tokens" then .length
      else .stop
    (st,
      [{ id := anthropicChunkId st now
         created := created
         model := st.model
         choices := [{ index := 0, delta := {},
                       finish_reason := some finishReason }] }])
  | .messageStop => (st, [])
  | .ping => (st, [])

/-- The per-line loop of `AnthropicProvider.completionStream` over the
buffered SSE lines, threading the stream state. -/
def anthropicRun (now created : Nat) (st : AnthropicStreamState) :
    List AnthropicLine → List ChatCompletionChunk
  | [] => []
  | .notData :: rest => anthropicRun now created st rest
  | .malformed :: rest => anthropicRun now created st rest
  | .event e :: rest =>
    let (st', chunks) := anthropicStep now created st e
    chunks ++ anthropicRun now created st' rest

/-- Embeds `AnthropicProvider.completionStream` decode: initial state has an
empty message id, the request model, and no tool use in progress. -/
def anthropicCompletionStreamDecode (reqModel : String) (now : Nat)
    (lines : List AnthropicLine) : List ChatCompletionChunk :=
  anthropicRun now (now / 1000) ⟨"", reqModel, none⟩ lines

-- =========================================================================
-- Llamafile provider (src/providers/llamafile.ts)
-- =========================================================================

/-- The `finish_reason` vocabulary of the llamafile (OpenAI-compatible)
response schema: `'stop' | 'length' | 'tool_calls' | null`. -/
inductive LlamafileFinish
  | stop
  | length
  | tool_calls
deriving DecidableEq, Repr

/-- Map a llamafile wire finish reason to the canonical vocabulary. -/
def llamafileFinishToCanonical : LlamafileFinish → FinishReason
  | .stop => .stop
  | .length => .length
  | .tool_calls => .tool_calls

/-- A message inside a llamafile non-streaming response choice. -/
structure LlamafileRespMessage where
  role : MessageRole
  content : Option String
  tool_calls : Option (List ToolCall) := none
deriving DecidableEq, Repr

/-- One choice of a llamafile non-streaming response. -/
structure LlamafileRespChoice where
  index : Nat
  message : LlamafileRespMessage
  finish_reason : Option LlamafileFinish
deriving DecidableEq, Repr

/-- Embeds `OpenAIChatResponse` as consumed by
`LlamafileProvider.convertResponse`. -/
structure LlamafileChatResponse where
  id : String
  created : Nat
  model : String
  choices : List LlamafileRespChoice
  usage : Option CompletionUsage := none
deriving DecidableEq, Repr

/-- Embeds `LlamafileProvider.convertResponse` (`src/providers/llamafile.ts`
lines 212-230): a field-for-field pass-through; in particular
`finish_reason` is copied verbatim (possibly null) and is not forced to
`tool_calls` when the message carries tool calls. -/
def llamafileConvertResponse (response : LlamafileChatResponse) :
    ChatCompletion :=
  { id := response.id
    created := response.created
    model := response.model
    provider := some "llamafile"
    choices := response.choices.map (fun choice =>
      { index := choice.index
        message :=
          { role := choice.message.role
            content :=
              match choice.message.content with
              | some s => .str s
              | none => .null
            tool_calls := choice.message.tool_calls }
        finish_reason := choice.finish_reason.map llamafileFinishToCanonical })
    usage := response.usage }

/-- The `function` payload of a raw streamed tool-call delta
(accessed with `tc.function?.`). -/
structure LlamafileRawFn where
  name : String
  arguments : String
deriving DecidableEq, Repr

/-- A raw tool-call delta of a llamafile stream frame. -/
structure LlamafileRawToolCall where
  id : String
  function : Option LlamafileRawFn
deriving DecidableEq, Repr

/-- The `delta` payload of a llamafile stream frame
(`chunk.choices?.[0]?.delta`). -/
structure LlamafileDelta where
  role : Option MessageRole := none
  content : Option String := none
  tool_calls : Option (List LlamafileRawToolCall) := none
deriving DecidableEq, Repr

/-- One parsed llamafile SSE frame, restricted to the fields the stream
loop reads. All identity fields come from the frame itself. -/
structure LlamafileFrame where
  id : Option String := none
  created : Option Nat := none
  model : Option String := none
  delta : Option LlamafileDelta := none
  finish : Option FinishReason := none
deriving DecidableEq, Repr

/-- One line of the llamafile SSE stream after buffering. -/
inductive LlamafileLine
  | notData
  | done
  | malformed
  | frame (f : LlamafileFrame)
deriving DecidableEq, Repr

/-- TS `a || b` for an optional number where `0` is falsy. -/
def natOrJS (a : Option Nat) (b : Nat) : Nat :=
  match a with
  | some n => if n = 0 then b else n
  | none => b

/-- The chunk emitted for one llamafile frame carrying a delta
(`src/providers/llamafile.ts` lines 340-364): `id`, `created` and
`model` all fall back per-frame from the frame fields. -/
def llamafileEmitChunk (reqModel : String) (now : Nat)
    (f : LlamafileFrame) (d : LlamafileDelta) : ChatCompletionChunk :=
  { id := strOr f.id ("llamafile-" ++ toString now)
    created := natOrJS f.created (now / 1000)
    model := strOr f.model reqModel
    choices := [{
      index := 0
      delta :=
        { role := d.role
          content :=
            match d.content with
            | some s => if s == "" then none else some s
            | none => none
          tool_calls := d.tool_calls.map (fun tcs => tcs.map (fun tc =>
            { id := some tc.id
              name := tc.function.map (fun fn => fn.name)
              arguments := tc.function.map (fun fn => fn.arguments) })) }
      finish_reason := f.finish }] }

/-- The per-line loop of `LlamafileProvider.completionStream`
(`src/providers/llamafile.ts` lines 320-371): non-data lines and
unparseable lines are skipped, `data: [DONE]` ends the stream, and a
frame yields a chunk only when it carries a delta. -/
def llamafileCompletionStreamDecode (reqModel : String) (now : Nat) :
    List LlamafileLine → List ChatCompletionChunk
  | [] => []
  | .notData :: rest => llamafileCompletionStreamDecode reqModel now rest
  | .done :: _ => []
  | .malformed :: rest => llamafileCompletionStreamDecode reqModel now rest
  | .frame f :: rest =>
    match f.delta with
    | some d =>
      llamafileEmitChunk reqModel now f d ::
        llamafileCompletionStreamDecode reqModel now rest
    | none => llamafileCompletionStreamDecode reqModel now rest

/-- The frames of a llamafile line stream that yield a chunk: frames
carrying a delta, before any `[DONE]` marker, in arrival order. -/
def llamafileEmittedFrames : List LlamafileLine → List LlamafileFrame
  | [] => []
  | .notData :: rest => llamafileEmittedFrames rest
  | .done :: _ => []
  | .malformed :: rest => llamafileEmittedFrames rest
  | .frame f :: rest =>
    match f.delta with
    | some _ => f :: llamafileEmittedFrames rest
    | none => llamafileEmittedFrames rest

-- =========================================================================
-- Base provider listModels and the Anthropic override
-- (src/providers/base.ts, src/providers/anthropic.ts)
-- =========================================================================

/-- Embeds `BaseProvider.listModels` (`src/providers/base.ts` lines 185-190):
providers that do not support listing return an empty list without
error; supporting providers must override, else a plain `Error`. -/
def baseListModels (providerName : String) (supportsListModels : Bool) :
    Except String (List ModelInfo) :=
  if !supportsListModels then .ok []
  else .error ("listModels not implemented for " ++ providerName)

/-- Embeds `AnthropicProvider.SUPPORTS_LIST_MODELS`
(`src/providers/anthropic.ts` line 107): Anthropic has no models
endpoint, so the capability flag is false. -/
def anthropicSupportsListModels : Bool := false

/-- Embeds `AnthropicProvider.listModels` (`src/providers/anthropic.ts` lines
136-171): overrides the base with a static four-model list. -/
def anthropicListModels : List ModelInfo :=
  [ { id := "claude-sonnet-4-20250514", owned_by := some "anthropic",
      provider := some "anthropic", supports_tools := some true,
      supports_vision := some true },
    { id := "claude-3-5-sonnet-20241022", owned_by := some "anthropic",
      provider := some "anthropic", supports_tools := some true,
      supports_vision := some true },
    { id := "claude-3-5-haiku-20241022", owned_by := some "anthropic",
      provider := some "anthropic", supports_tools := some true,
      supports_vision := some true },
    { id := "claude-3-opus-20240229", owned_by := some "anthropic",
      provider := some "anthropic", supports_tools := some true,
      supports_vision := some true } ]

-- =========================================================================
-- checkProvider (src/api.ts)
-- =========================================================================

/-- The observable behaviour of a provider as exercised by
`checkProvider`: each step either returns or throws (with the thrown
value's message). -/
structure ProviderBehavior where
  /-- Embeds `PROVIDER_NAME` of the constructed instance. -/
  name : String
  /-- Embeds `SUPPORTS_LIST_MODELS` of the constructed instance. -/
  supportsListModels : Bool
  /-- Embeds `createProvider`: construction may throw. -/
  construct : Except String Unit
  /-- Embeds `isAvailable()`: may reject. -/
  isAvailable : Except String Bool
  /-- Embeds `listModels()`: may reject. -/
  listModels : Except String (List ModelInfo)

/-- Embeds `checkProvider` of `src/api.ts` (lines 135-164): the outer
try/catch turns any construction or availability failure into an
unavailable status carrying the failure message; the inner try/catch
around `listModels` swallows its errors, leaving `models` undefined. -/
def checkProvider (requestedName : String) (b : ProviderBehavior) :
    ProviderStatus :=
  match b.construct with
  | .error msg =>
    { provider := strToLower requestedName, available := false, error := some msg }
  | .ok _ =>
    match b.isAvailable with
    | .error msg =>
      { provider := strToLower requestedName, available := false, error := some msg }
    | .ok available =>
      let models : Option (List ModelInfo) :=
        if available && b.supportsListModels then
          match b.listModels with
          | .ok ms => some ms
          | .error _ => none
        else none
      { provider := b.name, available := available, models := models }

-- =========================================================================
-- Concrete fixtures used by individual claim theorems
-- =========================================================================

/-- Is a fallible computation successful? -/
def isOkExcept {ε α : Type} : Except ε α → Bool
  | .ok _ => true
  | .error _ => false

/-- A thrown transport failure that carries both an HTTP-like status and
a connection-refusal message: an `Error` with a numeric `status`
property of 503 whose message says the connection was refused. -/
def connStatusThrown : Thrown :=
  { isError := true
    canonical := none
    status := some 503
    message := "connection refused by host"
    name := "Error"
    strRepr := "Error: connection refused by host" }

/-- The synthetic incremental backend stream of the tool-call
reassembly property: a tool-use start frame, three argument-fragment
frames carrying the texts of a small JSON document, then the stop frame
of the content block. -/
def toolReassemblyEvents : List AnthropicLine :=
  [ .event (.contentBlockStartToolUse "toolu_01" "get_weather"),
    .event (.contentBlockDelta (.inputJsonDelta "\x7b\"a\":")),
    .event (.contentBlockDelta (.inputJsonDelta "1")),
    .event (.contentBlockDelta (.inputJsonDelta "\x7d")),
    .event .contentBlockStop ]

/-- The single chunk the Anthropic decoder emits for
`toolReassemblyEvents`: the reassembled tool call with null
`finish_reason`. -/
def toolReassemblyChunk : ChatCompletionChunk :=
  { id := "anthropic-0"
    created := 0
    model := "claude-3"
    choices := [{
      index := 0
      delta := { tool_calls := some [{
        id := some "toolu_01"
        name := some "get_weather"
        arguments := some "\x7b\"a\":1\x7d" }] }
      finish_reason := none }] }

/-- A llamafile stream frame carrying a content delta under frame id
`a`. -/
def llamafileFrameA : LlamafileFrame :=
  { id := some "a", created := some 7, model := some "m1",
    delta := some { content := some "Hello" } }

/-- A llamafile stream frame identical to `llamafileFrameA` except that
the backend reported frame id `b`. -/
def llamafileFrameB : LlamafileFrame :=
  { id := some "b", created := some 7, model := some "m1",
    delta := some { content := some "Hello" } }

/-- A llamafile backend response whose single choice carries one tool
call but a null `finish_reason`. -/
def llamafileToolNullResponse : LlamafileChatResponse :=
  let toolCall : ToolCall :=
    { id := "call_0", name := "get_weather", arguments := "\x7b\x7d" }
  { id := "cmpl-1"
    created := 100
    model := "default"
    choices := [{
      index := 0
      message :=
        { role := .assistant
          content := none
          tool_calls := some [toolCall] }
      finish_reason := none }] }

/-- A user message carrying a `tool_call_id`, violating the invariant
that `tool_call_id` is only set on tool messages. -/
def userMsgWithToolCallId : Message :=
  { role := .user, content := .str "hi", tool_call_id := some "call_1" }

/-- A user message carrying `tool_calls`, violating the invariant that
`tool_calls` is only set on assistant messages. -/
def userMsgWithToolCalls : Message :=
  let tc : ToolCall := { id := "c1", name := "f", arguments := "\x7b\x7d" }
  { role := .user, content := .str "hi", tool_calls := some [tc] }

/-- A provider behaviour whose construction throws. -/
def behaviorConstructFails : ProviderBehavior :=
  { name := "mock", supportsListModels := true, construct := .error "boom",
    isAvailable := .ok true, listModels := .ok [] }

/-- A provider behaviour that is available but whose `listModels`
rejects. -/
def behaviorListFails : ProviderBehavior :=
  { name := "mock", supportsListModels := true, construct := .ok (),
    isAvailable := .ok true, listModels := .error "nope" }

-- =========================================================================
-- Claim theorems
-- =========================================================================

/-- C1 counterexample: resolution of a provider/model string with no
usable prefix raises a plain uncategorised `Error`
(`src/registry.ts` lines 176-180), not an instance of the canonical
taxonomy, and this error escapes `completion`/`completionStream`
unwrapped (`src/api.ts` calls `resolveProviderAndModel` outside any
try/catch). This refutes the claim that every failure surfaced from
resolution is one of the seven canonical error kinds. -/
theorem C1_counterexample :
    resolveProviderAndModel builtinRegistry "gpt-4o" none =
      Except.error (GatewayError.plain
        ("Cannot determine provider for model gpt-4o. " ++
          "Use provider:model format or pass explicit provider parameter.")) ∧
    errsCanonical (resolveProviderAndModel builtinRegistry "gpt-4o" none) = false := by
  constructor
  · rfl
  · rfl

/-- C1 amended: failures raised by the provider network path
(modelled by the `OllamaProvider.completion` catch block) and by the
registry lookup are canonical, but model-string resolution failures and
`BaseProvider.validateConfig` failures are plain uncategorised `Error`s
that escape `completion`/`completionStream` outside the taxonomy. -/
theorem C1_amended :
    (∀ (timeoutMs : Nat) (e : Thrown),
      (ollamaCompletionCatch timeoutMs e).isCanonical = true) ∧
    (∀ (registry : List String) (name : String),
      errsCanonical (createProviderCheck registry name) = true) ∧
    (∀ (registry : List String) (model : String) (provider : Option String),
      errsPlain (resolveProviderAndModel registry model provider) = true) ∧
    (∀ (providerName envKey : String) (requiresApiKey : Bool)
        (apiKey : Option String),
      errsPlain (validateConfig providerName envKey requiresApiKey apiKey) = true) := by
  refine ⟨?_, ?_, ?_, ?_⟩
  · intro timeoutMs e
    unfold ollamaCompletionCatch
    split
    · rfl
    · split <;> rfl
  · intro registry name
    unfold createProviderCheck
    split <;> rfl
  · intro registry model provider
    unfold resolveProviderAndModel
    split
    · rfl
    · split <;> rfl
  · intro providerName envKey requiresApiKey apiKey
    unfold validateConfig
    split <;> rfl

/-- C4 counterexample: on the synthetic incremental stream (tool-use
start, fragments of a small JSON document, content-block stop) the
Anthropic decoder emits exactly one chunk carrying the reassembled tool
call with the verbatim concatenated arguments — but that chunk's
`finish_reason` is null (`src/providers/anthropic.ts` line 577), not
`tool_calls` as the claim requires. -/
theorem C4_counterexample :
    anthropicCompletionStreamDecode "claude-3" 0 toolReassemblyEvents =
      [toolReassemblyChunk] ∧
    ((anthropicCompletionStreamDecode "claude-3" 0 toolReassemblyEvents).any
      (fun c => c.choices.any
        (fun ch => ch.finish_reason == some FinishReason.tool_calls))) = false := by
  constructor
  · rfl
  · rfl

/-- C4 amended: the decoder emits exactly one tool-call chunk whose
`arguments` string is the verbatim concatenation of the fragments, with
null `finish_reason`; a `finish_reason` of `tool_calls` is only emitted
as a separate terminal chunk (with empty delta) when a `message_delta`
frame with stop reason `tool_use` follows. -/
theorem C4_amended :
    anthropicCompletionStreamDecode "claude-3" 0
        (toolReassemblyEvents ++ [.event (.messageDelta (some "tool_use"))]) =
      [toolReassemblyChunk,
        { id := "anthropic-0"
          created := 0
          model := "claude-3"
          choices := [{ index := 0, delta := {},
                        finish_reason := some FinishReason.tool_calls }] }] := by
  rfl

/-- C5 counterexample: the llamafile decoder takes each chunk's `id`
from the backend frame (`src/providers/llamafile.ts` line 359), so a
stream whose two frames report different ids emits chunks with
different ids, refuting the claim that every chunk of every stream
shares the first chunk's `id` and `model`. -/
theorem C5_counterexample :
    (llamafileCompletionStreamDecode "m" 0
      [.frame llamafileFrameA, .frame llamafileFrameB]).map (fun c => c.id) =
      ["a", "b"] ∧
    ("a" : String) ≠ "b" := by
  constructor
  · rfl
  · decide

/-- C5 amended: the Ollama decoder gives every chunk of a stream the
single `id` captured before the loop, but takes `model` from each frame
(falling back to the request model); the llamafile decoder takes both
`id` and `model` from each frame. Identifiers are therefore stable
exactly when every backend frame reports the same values. -/
theorem C5_amended :
    (∀ (reqModel : String) (now : Nat) (lines : List OllamaLine),
      (ollamaCompletionStreamDecode reqModel now lines).map (fun c => c.id) =
        (ollamaParsedFrames lines).map (fun _ => "ollama-" ++ toString now)) ∧
    (∀ (reqModel : String) (now : Nat) (lines : List OllamaLine),
      (ollamaCompletionStreamDecode reqModel now lines).map (fun c => c.model) =
        (ollamaParsedFrames lines).map (fun f => strOr f.model reqModel)) ∧
    (∀ (reqModel : String) (now : Nat) (lines : List LlamafileLine),
      (llamafileCompletionStreamDecode reqModel now lines).map (fun c => c.id) =
        (llamafileEmittedFrames lines).map
          (fun f => strOr f.id ("llamafile-" ++ toString now))) ∧
    (∀ (reqModel : String) (now : Nat) (lines : List LlamafileLine),
      (llamafileCompletionStreamDecode reqModel now lines).map (fun c => c.model) =
        (llamafileEmittedFrames lines).map (fun f => strOr f.model reqModel)) := by
  refine ⟨?_, ?_, ?_, ?_⟩
  · intro reqModel now lines
    induction lines with
    | nil => rfl
    | cons l rest ih =>
      cases l with
      | blank => simpa [ollamaCompletionStreamDecode, ollamaParsedFrames] using ih
      | malformed => simpa [ollamaCompletionStreamDecode, ollamaParsedFrames] using ih
      | frame f =>
        simp [ollamaCompletionStreamDecode, ollamaParsedFrames, ollamaEmitChunk, ih]
  · intro reqModel now lines
    induction lines with
    | nil => rfl
    | cons l rest ih =>
      cases l with
      | blank => simpa [ollamaCompletionStreamDecode, ollamaParsedFrames] using ih
      | malformed => simpa [ollamaCompletionStreamDecode, ollamaParsedFrames] using ih
      | frame f =>
        simp [ollamaCompletionStreamDecode, ollamaParsedFrames, ollamaEmitChunk, ih]
  · intro reqModel now lines
    induction lines with
    | nil => rfl
    | cons l rest ih =>
      cases l with
      | notData => simpa [llamafileCompletionStreamDecode, llamafileEmittedFrames] using ih
      | done => rfl
      | malformed => simpa [llamafileCompletionStreamDecode, llamafileEmittedFrames] using ih
      | frame f =>
        cases h : f.delta with
        | some d =>
          simp [llamafileCompletionStreamDecode, llamafileEmittedFrames, h,
            llamafileEmitChunk, ih]
        | none =>
          simp [llamafileCompletionStreamDecode, llamafileEmittedFrames, h, ih]
  · intro reqModel now lines
    induction lines with
    | nil => rfl
    | cons l rest ih =>
      cases l with
      | notData => simpa [llamafileCompletionStreamDecode, llamafileEmittedFrames] using ih
      | done => rfl
      | malformed => simpa [llamafileCompletionStreamDecode, llamafileEmittedFrames] using ih
      | frame f =>
        cases h : f.delta with
        | some d =>
          simp [llamafileCompletionStreamDecode, llamafileEmittedFrames, h,
            llamafileEmitChunk, ih]
        | none =>
          simp [llamafileCompletionStreamDecode, llamafileEmittedFrames, h, ih]

/-- C8 counterexample: `AnthropicProvider` has
`SUPPORTS_LIST_MODELS = false` yet overrides `listModels` to return a
static four-model list (`src/providers/anthropic.ts` lines 107 and
136-171), refuting the claim that every provider with a false flag
returns an empty sequence. -/
theorem C8_counterexample :
    anthropicSupportsListModels = false ∧
    anthropicListModels.length = 4 ∧
    anthropicListModels ≠ [] := by
  refine ⟨rfl, rfl, ?_⟩
  decide

/-- C8 amended: providers that inherit `BaseProvider.listModels` return
an empty sequence without error when the flag is false, but
`AnthropicProvider` overrides it and returns its static four-model list
despite its flag being false. -/
theorem C8_amended :
    (∀ providerName : String, baseListModels providerName false = .ok []) ∧
    anthropicSupportsListModels = false ∧
    anthropicListModels.map (fun m => m.id) =
      ["claude-sonnet-4-20250514", "claude-3-5-sonnet-20241022",
        "claude-3-5-haiku-20241022", "claude-3-opus-20240229"] := by
  exact ⟨fun _ => rfl, rfl, rfl⟩

/-- C2 counterexample: requests that violate every validation rule of
the claim — an empty messages list, a `tool_call_id` on a user message,
and `tool_calls` on a user message — are accepted by the synchronous
pre-network phase of both `OllamaProvider.completion` and
`OpenAIProvider.completion`; the source then proceeds straight to the
`fetch` call, so no rejection happens before network I/O. -/
theorem C2_counterexample :
    isOkExcept (ollamaBuildRequest (ν := Unit) none none
      { model := "llama3.2", messages := [] }) = true ∧
    isOkExcept (openaiBuildRequest (ν := Unit) (some "sk-test")
      { model := "gpt-4o", messages := [] }) = true ∧
    isOkExcept (ollamaBuildRequest (ν := Unit) none none
      { model := "llama3.2", messages := [userMsgWithToolCallId] }) = true ∧
    isOkExcept (openaiBuildRequest (ν := Unit) (some "sk-test")
      { model := "gpt-4o", messages := [userMsgWithToolCalls] }) = true := by
  exact ⟨rfl, rfl, rfl, rfl⟩

/-- C2 amended: no adapter validates the messages list. The Ollama
pre-network phase converts the messages unconditionally and can only
reject over the tools-unsupported check; the OpenAI pre-network phase
(with an API key present) never rejects and converts the messages
unconditionally. Empty message lists and misplaced
`tool_call_id`/`tool_calls` fields are forwarded to the backend. -/
theorem C2_amended :
    (∀ (ν : Type) (toolsSupported : Option Bool) (version : Option String)
        (req : CompletionRequest ν),
      match ollamaBuildRequest toolsSupported version req with
      | .ok r => r.messages = req.messages.map ollamaConvertMessage
      | .error _ => True) ∧
    (∀ (ν : Type) (toolsSupported : Option Bool) (version : Option String)
        (req : CompletionRequest ν),
      isOkExcept (ollamaBuildRequest toolsSupported version req) = true ∨
        (toolsSupported = some false ∧
          ∃ ts, req.tools = some ts ∧ ts.length > 0)) ∧
    (∀ (ν : Type) (req : CompletionRequest ν),
      isOkExcept (openaiBuildRequest (some "sk-key") req) = true) ∧
    (∀ (ν : Type) (req : CompletionRequest ν),
      match openaiBuildRequest (some "sk-key") req with
      | .ok r => r.messages = req.messages.map openaiConvertMessage
      | .error _ => True) := by
  refine ⟨?_, ?_, ?_, ?_⟩
  · intro ν toolsSupported version req
    unfold ollamaBuildRequest
    cases h : req.tools with
    | none => simp
    | some tl =>
      by_cases hlen : tl.length > 0
      · by_cases hts : toolsSupported == some false
        · simp [hlen, hts]
        · simp [hlen, hts]
      · simp [hlen]
  · intro ν toolsSupported version req
    cases h : req.tools with
    | none =>
      left
      unfold ollamaBuildRequest
      simp [h, isOkExcept]
    | some tl =>
      by_cases hlen : tl.length > 0
      · by_cases hts : toolsSupported == some false
        · right
          refine ⟨eq_of_beq hts, tl, ?_, hlen⟩
          simp [h]
        · left
          unfold ollamaBuildRequest
          simp [h, hlen, hts, isOkExcept]
      · left
        unfold ollamaBuildRequest
        simp [h, hlen, isOkExcept]
  · intro ν req
    rfl
  · intro ν req
    rfl

/-- C7 counterexample: `LlamafileProvider.convertResponse` copies the
backend `finish_reason` verbatim, so a response whose choice carries one
tool call but a null `finish_reason` converts to a choice whose message
has a tool call while `finish_reason` is null — outside the claimed set
and not `tool_calls`. -/
theorem C7_counterexample :
    (llamafileConvertResponse llamafileToolNullResponse).choices.map
      (fun c => c.finish_reason) = [none] ∧
    (llamafileConvertResponse llamafileToolNullResponse).choices.map
      (fun c => (c.message.tool_calls.getD []).length) = [1] := by
  exact ⟨rfl, rfl⟩

/-- C7 amended: Ollama's conversion always produces `tool_calls` when
the converted message carries tool calls and `stop` otherwise (never
null); Anthropic's conversion always produces a non-null finish reason
(derived from `stop_reason` alone); llamafile's conversion passes the
backend `finish_reason` through verbatim, which may be null and is not
forced to `tool_calls`. -/
theorem C7_amended :
    (∀ (now : Nat) (model : String) (resp : OllamaChatResponse),
      (ollamaConvertResponse now model resp).choices.all (fun c =>
        c.finish_reason ==
          (if (c.message.tool_calls.getD []).length > 0
           then some FinishReason.tool_calls
           else some FinishReason.stop)) = true) ∧
    (∀ (now : Nat) (resp : AnthropicResponse),
      (anthropicConvertResponse now resp).choices.all
        (fun c => c.finish_reason.isSome) = true) ∧
    (∀ resp : LlamafileChatResponse,
      (llamafileConvertResponse resp).choices.map (fun c => c.finish_reason) =
        resp.choices.map
          (fun c => c.finish_reason.map llamafileFinishToCanonical)) := by
  refine ⟨?_, ?_, ?_⟩
  · intro now model resp
    unfold ollamaConvertResponse
    cases h : resp.message.tool_calls with
    | none => simp
    | some tcs =>
      by_cases hlen : tcs.length > 0
      · simp [hlen]
      · simp [hlen]
  · intro now resp
    rfl
  · intro resp
    simp [llamafileConvertResponse, List.map_map]

/-- C9: a stream with one unparseable line between two valid
content-bearing frames yields exactly the two content chunks, in
arrival order, for the Ollama, llamafile and Anthropic decoders; and in
general a malformed line is skipped without changing the decode of the
rest of the stream. -/
theorem C9_malformed_resilience :
    (∀ t1 t2 : String, t1 ≠ "" → t2 ≠ "" →
      ollamaCompletionStreamDecode "m" 0
        [.frame { content := some t1, done := false }, .malformed,
         .frame { content := some t2, done := false }] =
        [ { id := "ollama-0", created := 0, model := "m",
            choices := [{ index := 0, delta := { content := some t1 },
                          finish_reason := none }] },
          { id := "ollama-0", created := 0, model := "m",
            choices := [{ index := 0, delta := { content := some t2 },
                          finish_reason := none }] } ]) ∧
    (∀ t1 t2 : String, t1 ≠ "" → t2 ≠ "" →
      llamafileCompletionStreamDecode "m" 0
        [.frame { delta := some { content := some t1 } }, .malformed,
         .frame { delta := some { content := some t2 } }] =
        [ { id := "llamafile-0", created := 0, model := "m",
            choices := [{ index := 0, delta := { content := some t1 },
                          finish_reason := none }] },
          { id := "llamafile-0", created := 0, model := "m",
            choices := [{ index := 0, delta := { content := some t2 },
                          finish_reason := none }] } ]) ∧
    (∀ t1 t2 : String, t1 ≠ "" → t2 ≠ "" →
      anthropicCompletionStreamDecode "m" 0
        [.event (.contentBlockDelta (.textDelta t1)), .malformed,
         .event (.contentBlockDelta (.textDelta t2))] =
        [ { id := "anthropic-0", created := 0, model := "m",
            choices := [{ index := 0, delta := { content := some t1 },
                          finish_reason := none }] },
          { id := "anthropic-0", created := 0, model := "m",
            choices := [{ index := 0, delta := { content := some t2 },
                          finish_reason := none }] } ]) ∧
    (∀ (reqModel : String) (now : Nat) (rest : List OllamaLine),
      ollamaCompletionStreamDecode reqModel now (.malformed :: rest) =
        ollamaCompletionStreamDecode reqModel now rest) ∧
    (∀ (reqModel : String) (now : Nat) (rest : List LlamafileLine),
      llamafileCompletionStreamDecode reqModel now (.malformed :: rest) =
        llamafileCompletionStreamDecode reqModel now rest) ∧
    (∀ (now created : Nat) (st : AnthropicStreamState)
        (rest : List AnthropicLine),
      anthropicRun now created st (.malformed :: rest) =
        anthropicRun now created st rest) := by
  refine ⟨?_, ?_, ?_, ?_, ?_, ?_⟩
  · intro t1 t2 h1 h2
    simp [ollamaCompletionStreamDecode, ollamaEmitChunk, strOr,
      beq_iff_eq, h1, h2]
    all_goals rfl
  · intro t1 t2 h1 h2
    simp [llamafileCompletionStreamDecode, llamafileEmitChunk, strOr,
      natOrJS, beq_iff_eq, h1, h2]
    all_goals rfl
  · intro t1 t2 h1 h2
    simp [anthropicCompletionStreamDecode, anthropicRun, anthropicStep,
      anthropicChunkId, strOr, beq_iff_eq, h1, h2]
    all_goals rfl
  · intro reqModel now rest
    rfl
  · intro reqModel now rest
    rfl
  · intro now created st rest
    rfl

/-- C9 witness: the two-content-chunks scenario evaluated on the
concrete texts of a small greeting for all three decoders. -/
theorem C9_malformed_resilience_witness :
    ollamaCompletionStreamDecode "m" 0
      [.frame { content := some "Hello", done := false }, .malformed,
       .frame { content := some "world", done := false }] =
      [ { id := "ollama-0", created := 0, model := "m",
          choices := [{ index := 0, delta := { content := some "Hello" },
                        finish_reason := none }] },
        { id := "ollama-0", created := 0, model := "m",
          choices := [{ index := 0, delta := { content := some "world" },
                        finish_reason := none }] } ] ∧
    llamafileCompletionStreamDecode "m" 0
      [.frame { delta := some { content := some "Hello" } }, .malformed,
       .frame { delta := some { content := some "world" } }] =
      [ { id := "llamafile-0", created := 0, model := "m",
          choices := [{ index := 0, delta := { content := some "Hello" },
                        finish_reason := none }] },
        { id := "llamafile-0", created := 0, model := "m",
          choices := [{ index := 0, delta := { content := some "world" },
                        finish_reason := none }] } ] ∧
    anthropicCompletionStreamDecode "m" 0
      [.event (.contentBlockDelta (.textDelta "Hello")), .malformed,
       .event (.contentBlockDelta (.textDelta "world"))] =
      [ { id := "anthropic-0", created := 0, model := "m",
          choices := [{ index := 0, delta := { content := some "Hello" },
                        finish_reason := none }] },
        { id := "anthropic-0", created := 0, model := "m",
          choices := [{ index := 0, delta := { content := some "world" },
                        finish_reason := none }] } ] := by
  refine ⟨?_, ?_, ?_⟩
  · exact C9_malformed_resilience.1 "Hello" "world" (by decide) (by decide)
  · exact C9_malformed_resilience.2.1 "Hello" "world" (by decide) (by decide)
  · exact C9_malformed_resilience.2.2.1 "Hello" "world" (by decide) (by decide)

/-- C10: `checkProvider` never throws. A construction or availability
failure produces a status with `available = false` and the failure
message in `error`; a `listModels` failure on an available provider is
silently swallowed, leaving `models` undefined; on success `models`
carries the listed models; and a provider without the list capability
leaves `models` undefined. -/
theorem C10_checkProvider :
    (∀ (requestedName : String) (b : ProviderBehavior) (msg : String),
      b.construct = .error msg →
      checkProvider requestedName b =
        { provider := strToLower requestedName, available := false,
          error := some msg }) ∧
    (∀ (requestedName : String) (b : ProviderBehavior) (msg : String),
      b.construct = .ok () → b.isAvailable = .error msg →
      checkProvider requestedName b =
        { provider := strToLower requestedName, available := false,
          error := some msg }) ∧
    (∀ (requestedName : String) (b : ProviderBehavior) (msg : String),
      b.construct = .ok () → b.isAvailable = .ok true →
      b.supportsListModels = true → b.listModels = .error msg →
      checkProvider requestedName b =
        { provider := b.name, available := true, error := none,
          models := none }) ∧
    (∀ (requestedName : String) (b : ProviderBehavior) (ms : List ModelInfo),
      b.construct = .ok () → b.isAvailable = .ok true →
      b.supportsListModels = true → b.listModels = .ok ms →
      checkProvider requestedName b =
        { provider := b.name, available := true, models := some ms }) ∧
    (∀ (requestedName : String) (b : ProviderBehavior) (avail : Bool),
      b.construct = .ok () → b.isAvailable = .ok avail →
      b.supportsListModels = false →
      checkProvider requestedName b =
        { provider := b.name, available := avail, models := none }) := by
  refine ⟨?_, ?_, ?_, ?_, ?_⟩
  · intro requestedName b msg hc
    simp [checkProvider, hc]
  · intro requestedName b msg hc ha
    simp [checkProvider, hc, ha]
  · intro requestedName b msg hc ha hf hl
    simp [checkProvider, hc, ha, hf, hl]
  · intro requestedName b ms hc ha hf hl
    simp [checkProvider, hc, ha, hf, hl]
  · intro requestedName b avail hc ha hf
    simp [checkProvider, hc, ha, hf]

/-- C10 witness: `checkProvider` evaluated on a behaviour whose
construction throws and on a behaviour whose `listModels` rejects. -/
theorem C10_checkProvider_witness :
    checkProvider "Mock" behaviorConstructFails =
      { provider := "mock", available := false, error := some "boom" } ∧
    checkProvider "mock" behaviorListFails =
      { provider := "mock", available := true, models := none } := by
  constructor
  · exact C10_checkProvider.1 "Mock" behaviorConstructFails "boom" rfl
  · exact C10_checkProvider.2.2.1 "mock" behaviorListFails "nope" rfl rfl rfl rfl

/-- C3 counterexample: `wrapError` checks the numeric-status rules
before the connection-refusal rule (`src/errors.ts` lines 327-347), so
a thrown `Error` carrying both status 503 and a connection-refusal
message maps to `ProviderRequestError` with that status — while the
claimed priority order (connection signal before the status rules)
would map it to `ProviderUnavailableError`. The claimed mapping
therefore disagrees with the code on this input. -/
theorem C3_counterexample :
    wrapError "ollama" connStatusThrown =
      .requestFailed "ollama" "connection refused by host" (some 503) ∧
    wrapErrorSpecClaim "ollama" connStatusThrown =
      .providerUnavailable "ollama"
        (some "Cannot connect to ollama. Is it running?") ∧
    wrapError "ollama" connStatusThrown ≠
      wrapErrorSpecClaim "ollama" connStatusThrown := by
  refine ⟨rfl, rfl, ?_⟩
  decide

/-- C3 amended: `wrapError` applies the rules in this priority order:
canonical pass-through (idempotence); status 429; status 401/403; any
other numeric status maps to `ProviderRequestError` with that status;
only then, for values without a status, a connection-refusal signal
maps to `ProviderUnavailableError`; then the rate-limit, credential and
cancellation message patterns; then `ProviderRequestError` with the
message; and non-Error values map to `ProviderRequestError` with the
stringified cause. -/
theorem C3_amended :
    ∀ (provider : String) (e : Thrown),
      wrapError provider e = wrapErrorSpecAmended provider e := by
  intro provider e
  cases hc : e.canonical with
  | some a => simp [wrapError, wrapErrorSpecAmended, hc]
  | none =>
    cases hs : e.status with
    | some s =>
      simp only [wrapError, wrapErrorSpecAmended, hc, hs]
      rfl
    | none =>
      by_cases hE : e.isError
      · by_cases hConn : isConnectionError e
        · simp [wrapError, wrapErrorSpecAmended, hc, hs, hConn]
        · simp only [wrapError, wrapErrorSpecAmended, hc, hs, hConn,
            hE, Option.isSome_none, Bool.false_eq_true, if_false,
            Bool.true_and, if_true]
          rfl
      · have hConn : isConnectionError e = false := by
          unfold isConnectionError
          simp [hE]
        simp only [wrapError, wrapErrorSpecAmended, hc, hs, hConn,
          hE, Option.isSome_none, Bool.false_eq_true, if_false,
          Bool.false_and, Bool.true_and]
        rfl

/-- A helper for the resolution proofs: splitting at a character that
occurs exactly at the junction of an occurrence-free prefix. -/
theorem findSplit_append (c : Char) (pre post : List Char) (h : c ∉ pre) :
    findSplit c (pre ++ c :: post) = some (pre, post) := by
  induction pre with
  | nil => simp [findSplit]
  | cons x xs ih =>
    have hx : ¬(x = c) := by
      intro hxc
      exact h (by simp [hxc])
    have hxs : c ∉ xs := fun hmem => h (List.mem_cons_of_mem _ hmem)
    simp [findSplit, hx, ih hxs]

/-- C6: model-string resolution behaves as claimed. An explicit
(nonempty) provider is lowercased and the whole string is the model id;
a model string whose first colon separates two nonempty sides resolves
to that split with the full remainder (further colons included) as the
model id; `ollama:llama3.2:latest` resolves to provider `ollama` and
model `llama3.2:latest`; `openai/gpt-4o` resolves to provider `openai`
and model `gpt-4o` against the built-in registry; `meta-llama/Llama-3`
fails resolution since `meta-llama` is not registered; and a string
with no usable prefix fails with a resolution error. -/
theorem C6_resolution :
    (∀ (registry : List String) (model p : String), p ≠ "" →
      resolveProviderAndModel registry model (some p) =
        .ok ⟨strToLower p, model⟩) ∧
    (∀ (registry : List String) (pre post : List Char),
      ':' ∉ pre → pre ≠ [] → post ≠ [] →
      parseModelChars registry (pre ++ ':' :: post) =
        some ⟨strToLower (String.mk pre), String.mk post⟩) ∧
    resolveProviderAndModel builtinRegistry "ollama:llama3.2:latest" none =
      .ok ⟨"ollama", "llama3.2:latest"⟩ ∧
    resolveProviderAndModel builtinRegistry "openai/gpt-4o" none =
      .ok ⟨"openai", "gpt-4o"⟩ ∧
    isOkExcept (resolveProviderAndModel builtinRegistry "meta-llama/Llama-3" none) =
      false ∧
    errsPlain (resolveProviderAndModel builtinRegistry "meta-llama/Llama-3" none) =
      true ∧
    isOkExcept (resolveProviderAndModel builtinRegistry "llama3.2" none) = false := by
  refine ⟨?_, ?_, rfl, rfl, rfl, rfl, rfl⟩
  · intro registry model p hp
    have hop : optTruthy (some p) = true := by
      simp [optTruthy, hp]
    simp [resolveProviderAndModel, hop]
  · intro registry pre post hc hpre hpost
    unfold parseModelChars
    rw [findSplit_append ':' pre post hc]
    simp [List.isEmpty_iff, hpre, hpost]

/-- C6 witness: the general explicit-provider rule at a concrete
mixed-case provider, and the general colon rule at a concrete prefix
and remainder. -/
theorem C6_resolution_witness :
    resolveProviderAndModel builtinRegistry "my:model" (some "OpenAI") =
      .ok ⟨"openai", "my:model"⟩ ∧
    parseModelChars builtinRegistry ("ollama".toList ++ ':' :: "x".toList) =
      some ⟨"ollama", "x"⟩ := by
  constructor
  · exact C6_resolution.1 builtinRegistry "my:model" "OpenAI" (by decide)
  · exact C6_resolution.2.1 builtinRegistry "ollama".toList "x".toList
      (by decide) (by decide) (by decide)
